import Mathlib

/-!
Verification of the 2-D geometric-algebra toolkit in
`src/geometric_algebra_minimal_2D.py`.

Vectors are modelled as lists of rationals: a SymPy column vector of shape
(n, 1) is the list of its n entries, and the exact symbolic scalars of the
source are embedded as elements of the field ℚ.  The two Python exception
kinds (`ValueError` raised by `_validate_vector` and `ZeroDivisionError`
raised by `project`/`reject`) become the two constructors of `GAError`,
and every fallible function returns `Except GAError _`.  The explicit
`match` chains reproduce Python's evaluation order: the first raised
exception propagates and nothing after it runs.
-/

/-- The two error kinds of the toolkit: `invalidShape` carries the number
of components actually found (an n-entry column vector has shape (n, 1));
`divisionByZero` carries the source's message string. -/
inductive GAError where
  | invalidShape (found : Nat)
  | divisionByZero (msg : String)
  deriving DecidableEq, Repr

/-- Python `_validate_vector(v)`: succeeds when `v.shape == (2, 1)`, i.e.
the list has exactly two entries; otherwise raises `ValueError` reporting
the shape found. -/
def _validate_vector (v : List ℚ) : Except GAError Unit :=
  if v.length = 2 then Except.ok ()
  else Except.error (GAError.invalidShape v.length)

/-- Python `dot(a, b)`: validates both arguments, then returns SymPy's
`a.dot(b)`, the sum of componentwise products. -/
def dot (a b : List ℚ) : Except GAError ℚ :=
  match _validate_vector a with
  | Except.error e => Except.error e
  | Except.ok _ =>
    match _validate_vector b with
    | Except.error e => Except.error e
    | Except.ok _ => Except.ok (List.zipWith (fun x y => x * y) a b).sum

/-- Python `wedge(a, b)`: validates both arguments, then returns
`a[0] * b[1] - a[1] * b[0]`. -/
def wedge (a b : List ℚ) : Except GAError ℚ :=
  match _validate_vector a with
  | Except.error e => Except.error e
  | Except.ok _ =>
    match _validate_vector b with
    | Except.error e => Except.error e
    | Except.ok _ => Except.ok (a.getD 0 0 * b.getD 1 0 - a.getD 1 0 * b.getD 0 0)

/-- Python `geometric_prod_vec(a, b)`: returns `dot(a,b) + wedge(a,b)`,
evaluating `dot` first. -/
def geometric_prod_vec (a b : List ℚ) : Except GAError ℚ :=
  match dot a b with
  | Except.error e => Except.error e
  | Except.ok d =>
    match wedge a b with
    | Except.error e => Except.error e
    | Except.ok w => Except.ok (d + w)

/-- Python `project(u, v)`: computes `vv = dot(u, v)`; raises
`ZeroDivisionError` when `vv == 0`; otherwise returns the vector
`dot(u, v) * u / vv` (the scalar `dot(u, v)` times each component of `u`,
divided by `vv`), recomputing `dot(u, v)` as the source does. -/
def project (u v : List ℚ) : Except GAError (List ℚ) :=
  match dot u v with
  | Except.error e => Except.error e
  | Except.ok vv =>
    if vv = 0 then
      Except.error (GAError.divisionByZero "Cannot project onto the zero vector.")
    else
      match dot u v with
      | Except.error e => Except.error e
      | Except.ok d => Except.ok (u.map (fun c => d * c / vv))

/-- Python `reject(x, u)`: computes `uu = dot(u, u)`; raises
`ZeroDivisionError` when `uu == 0`; otherwise computes
`scalar = wedge(x, u) / uu` and returns `Matrix([-u[1], u[0]]) * scalar`. -/
def reject (x u : List ℚ) : Except GAError (List ℚ) :=
  match dot u u with
  | Except.error e => Except.error e
  | Except.ok uu =>
    if uu = 0 then
      Except.error (GAError.divisionByZero "Cannot reject about the zero vector.")
    else
      match wedge x u with
      | Except.error e => Except.error e
      | Except.ok s => Except.ok ([-u.getD 1 0, u.getD 0 0].map (fun c => c * (s / uu)))

/-- The standard rejection formula, written from the spec's words:
`x - project(x, u)` with the textbook projection `(dot(x,u)/dot(u,u)) * u`.
It exists only to be compared with the source's `reject`. -/
def standard_rejection (x u : List ℚ) : List ℚ :=
  List.zipWith
    (fun xi ui => xi - (List.zipWith (fun p q => p * q) x u).sum /
      (List.zipWith (fun p q => p * q) u u).sum * ui) x u

/-! ### Helper lemmas -/

theorem validate_ok {v : List ℚ} (h : v.length = 2) :
    _validate_vector v = Except.ok () := by
  simp [_validate_vector, h]

theorem validate_err {v : List ℚ} (h : v.length ≠ 2) :
    _validate_vector v = Except.error (GAError.invalidShape v.length) := by
  simp [_validate_vector, h]

theorem dot_pair (a0 a1 b0 b1 : ℚ) :
    dot [a0, a1] [b0, b1] = Except.ok (a0 * b0 + a1 * b1) := by
  simp [dot, _validate_vector]

theorem wedge_pair (a0 a1 b0 b1 : ℚ) :
    wedge [a0, a1] [b0, b1] = Except.ok (a0 * b1 - a1 * b0) := by
  simp [wedge, _validate_vector]

theorem dot_ok_shapes {a b : List ℚ} {d : ℚ} (h : dot a b = Except.ok d) :
    a.length = 2 ∧ b.length = 2 := by
  by_cases ha : a.length = 2 <;> by_cases hb : b.length = 2 <;>
    simp_all [dot, validate_ok, validate_err]

theorem wedge_ok_shapes {a b : List ℚ} {w : ℚ} (h : wedge a b = Except.ok w) :
    a.length = 2 ∧ b.length = 2 := by
  by_cases ha : a.length = 2 <;> by_cases hb : b.length = 2 <;>
    simp_all [wedge, validate_ok, validate_err]

theorem dot_demo : dot [4, 2] [3, 3] = Except.ok 18 := by
  rw [dot_pair]; norm_num

theorem wedge_demo : wedge [4, 2] [3, 3] = Except.ok 6 := by
  rw [wedge_pair]; norm_num

theorem reject_demo : reject [4, 2] [3, 3] = Except.ok [-1, 1] := by
  have h : dot [3, 3] [3, 3] = Except.ok 18 := by rw [dot_pair]; norm_num
  rw [reject, h, wedge_demo]
  norm_num [List.getD]

theorem gp_demo : geometric_prod_vec [4, 2] [3, 3] = Except.ok 24 := by
  rw [geometric_prod_vec, dot_demo, wedge_demo]
  norm_num

theorem project_demo : project [4, 2] [3, 3] = Except.ok [4, 2] := by
  rw [project, dot_demo]
  norm_num

/-! ### Claim theorems -/

/-- C4: `_validate_vector` succeeds silently exactly on 2-component
inputs, and otherwise fails with an `InvalidShape` error that reports the
actual number of components found. -/
theorem validate_vector_contract (v : List ℚ) :
    (v.length = 2 → _validate_vector v = Except.ok ()) ∧
    (v.length ≠ 2 → _validate_vector v = Except.error (GAError.invalidShape v.length)) :=
  ⟨validate_ok, validate_err⟩

theorem validate_vector_contract_witness :
    _validate_vector [1, 2] = Except.ok () ∧
    _validate_vector [1, 2, 3] = Except.error (GAError.invalidShape 3) :=
  ⟨(validate_vector_contract [1, 2]).1 rfl,
    (validate_vector_contract [1, 2, 3]).2 (by decide)⟩

/-- C5: for the demo inputs u = (4,2), v = (3,3): `dot` is 18, `wedge` is
6, `geometric_prod_vec` is 24, `project` returns u exactly, and `reject`
returns (-1, 1). -/
theorem demo_end_to_end :
    dot [4, 2] [3, 3] = Except.ok 18 ∧
    wedge [4, 2] [3, 3] = Except.ok 6 ∧
    geometric_prod_vec [4, 2] [3, 3] = Except.ok 24 ∧
    project [4, 2] [3, 3] = Except.ok [4, 2] ∧
    reject [4, 2] [3, 3] = Except.ok [-1, 1] :=
  ⟨dot_demo, wedge_demo, gp_demo, project_demo, reject_demo⟩

/-- C6: on every pair of 2-component vectors, `geometric_prod_vec`
returns exactly `dot + wedge`, with `dot(a,b) = a0*b0 + a1*b1` and
`wedge(a,b) = a0*b1 - a1*b0`. -/
theorem geometric_prod_eq_dot_add_wedge (a0 a1 b0 b1 : ℚ) :
    geometric_prod_vec [a0, a1] [b0, b1] =
      Except.ok ((a0 * b0 + a1 * b1) + (a0 * b1 - a1 * b0)) := by
  rw [geometric_prod_vec, dot_pair, wedge_pair]

/-- C7: the wedge product is antisymmetric: whenever `wedge a b` returns
a value w, `wedge b a` returns -w. -/
theorem wedge_antisymmetric (a b : List ℚ) (w : ℚ)
    (h : wedge a b = Except.ok w) : wedge b a = Except.ok (-w) := by
  obtain ⟨ha, hb⟩ := wedge_ok_shapes h
  obtain ⟨a0, a1, rfl⟩ := List.length_eq_two.mp ha
  obtain ⟨b0, b1, rfl⟩ := List.length_eq_two.mp hb
  rw [wedge_pair] at h
  simp only [Except.ok.injEq] at h
  subst h
  rw [wedge_pair]
  congr 1
  ring

theorem wedge_antisymmetric_witness : wedge [3, 3] [4, 2] = Except.ok (-6) :=
  wedge_antisymmetric [4, 2] [3, 3] 6 wedge_demo

/-- C8: for every 2-component vector a, `wedge a a` returns 0, and
`dot a a` returns the nonnegative value a0*a0 + a1*a1. -/
theorem wedge_self_zero_dot_self_nonneg (a0 a1 : ℚ) :
    wedge [a0, a1] [a0, a1] = Except.ok 0 ∧
    dot [a0, a1] [a0, a1] = Except.ok (a0 * a0 + a1 * a1) ∧
    0 ≤ a0 * a0 + a1 * a1 := by
  refine ⟨?_, dot_pair a0 a1 a0 a1,
    add_nonneg (mul_self_nonneg a0) (mul_self_nonneg a1)⟩
  rw [wedge_pair]
  congr 1
  ring

/-- C1: whenever `dot u v` returns a nonzero value, `project u v` returns
the first argument u itself exactly, because the formula
`dot(u,v) * u / vv` with `vv = dot(u,v)` cancels componentwise. -/
theorem project_returns_first_argument (u v : List ℚ) (d : ℚ)
    (h : dot u v = Except.ok d) (hd : d ≠ 0) : project u v = Except.ok u := by
  have hmap : (fun c : ℚ => d * c / d) = fun c : ℚ => c := by
    funext c
    exact mul_div_cancel_left₀ c hd
  simp only [project, h, if_neg hd, hmap, List.map_id']

theorem project_returns_first_argument_witness :
    project [4, 2] [3, 3] = Except.ok [4, 2] :=
  project_returns_first_argument [4, 2] [3, 3] 18 dot_demo (by norm_num)

/-- C3: on 2-component inputs, `project u v` fails with the
DivisionByZero error exactly when `dot u v` returns 0 (the guard tests
`dot(u,v)`, not `dot(v,v)`), and returns normally otherwise. -/
theorem project_error_iff (u v : List ℚ) (hu : u.length = 2) (hv : v.length = 2) :
    (project u v =
        Except.error (GAError.divisionByZero "Cannot project onto the zero vector.") ↔
      dot u v = Except.ok 0) ∧
    (dot u v ≠ Except.ok 0 → ∃ w, project u v = Except.ok w) := by
  have hdot : dot u v = Except.ok (List.zipWith (fun x y => x * y) u v).sum := by
    rw [dot, validate_ok hu, validate_ok hv]
  constructor
  · rw [project, hdot]
    by_cases hs : (List.zipWith (fun x y => x * y) u v).sum = 0
    · simp [hs]
    · simp [hs]
  · intro hne
    have hs : (List.zipWith (fun x y => x * y) u v).sum ≠ 0 :=
      fun h => hne (by rw [hdot, h])
    simp only [project, hdot, if_neg hs]
    exact ⟨_, rfl⟩

theorem project_error_iff_witness :
    project [1, 0] [0, 1] =
      Except.error (GAError.divisionByZero "Cannot project onto the zero vector.") ∧
    ∃ w, project [4, 2] [3, 3] = Except.ok w :=
  ⟨(project_error_iff [1, 0] [0, 1] rfl rfl).1.mpr (by rw [dot_pair]; norm_num),
    (project_error_iff [4, 2] [3, 3] rfl rfl).2 (by rw [dot_pair]; norm_num)⟩

/-- C9: whenever `reject x u` returns a vector r, r is perpendicular to
u: `dot r u` returns 0. -/
theorem reject_perpendicular (x u r : List ℚ)
    (h : reject x u = Except.ok r) : dot r u = Except.ok 0 := by
  cases hdu : dot u u with
  | error e => simp [reject, hdu] at h
  | ok uu =>
    obtain ⟨hu, -⟩ := dot_ok_shapes hdu
    obtain ⟨u0, u1, rfl⟩ := List.length_eq_two.mp hu
    by_cases hz : uu = 0
    · simp [reject, hdu, hz] at h
    · cases hw : wedge x [u0, u1] with
      | error e => simp [reject, hdu, hz, hw] at h
      | ok s =>
        simp only [reject, hdu, hw, if_neg hz, List.getD_cons_zero,
          List.getD_cons_succ, List.map_cons, List.map_nil,
          Except.ok.injEq] at h
        subst h
        rw [dot_pair]
        congr 1
        ring

theorem reject_perpendicular_witness : dot [-1, 1] [3, 3] = Except.ok 0 :=
  reject_perpendicular [4, 2] [3, 3] [-1, 1] reject_demo

/-- C10: `reject x u` evaluates `dot(u,u)` and its zero guard before ever
validating x: with the 2-D zero vector as reference, it fails with the
DivisionByZero error for every candidate x of any shape, never with
InvalidShape. -/
theorem reject_zero_reference (x u : List ℚ) (hlen : u.length = 2)
    (hz : ∀ c ∈ u, c = 0) :
    reject x u =
      Except.error (GAError.divisionByZero "Cannot reject about the zero vector.") := by
  obtain ⟨u0, u1, rfl⟩ := List.length_eq_two.mp hlen
  have h0 : u0 = 0 := hz u0 (by simp)
  have h1 : u1 = 0 := hz u1 (by simp)
  subst h0
  subst h1
  have hd : dot [(0 : ℚ), 0] [0, 0] = Except.ok 0 := by rw [dot_pair]; norm_num
  simp [reject, hd]

theorem reject_zero_reference_witness :
    reject [1, 2, 3] [0, 0] =
      Except.error (GAError.divisionByZero "Cannot reject about the zero vector.") :=
  reject_zero_reference [1, 2, 3] [0, 0] rfl (by simp)

/-- C2 counterexample: at x = (4,2), u = (3,3), the source's `reject`
returns (-1, 1) while the standard rejection `x - (dot(x,u)/dot(u,u))*u`
is (1, -1), so `reject` does not equal the standard rejection. -/
theorem reject_not_standard_rejection :
    reject [4, 2] [3, 3] = Except.ok [-1, 1] ∧
    standard_rejection [4, 2] [3, 3] = [1, -1] ∧
    reject [4, 2] [3, 3] ≠ Except.ok (standard_rejection [4, 2] [3, 3]) := by
  have hs : standard_rejection [4, 2] [3, 3] = [1, -1] := by
    simp [standard_rejection]
    norm_num
  refine ⟨reject_demo, hs, ?_⟩
  rw [reject_demo, hs]
  intro hcontra
  simp only [Except.ok.injEq, List.cons.injEq, and_true] at hcontra
  exact absurd hcontra.1 (by norm_num)

/-- C2 amended: on 2-component inputs with `dot u u` nonzero, `reject x u`
returns the NEGATION of the standard rejection
`x - (dot(x,u)/dot(u,u)) * u`, componentwise. -/
theorem reject_eq_neg_standard_rejection (x u : List ℚ) (uu : ℚ)
    (hdu : dot u u = Except.ok uu) (hz : uu ≠ 0) (hx : x.length = 2) :
    reject x u = Except.ok ((standard_rejection x u).map (fun c => -c)) := by
  obtain ⟨hu, -⟩ := dot_ok_shapes hdu
  obtain ⟨u0, u1, rfl⟩ := List.length_eq_two.mp hu
  obtain ⟨x0, x1, rfl⟩ := List.length_eq_two.mp hx
  simp only [dot_pair, Except.ok.injEq] at hdu
  subst hdu
  simp only [reject, dot_pair, wedge_pair, if_neg hz, List.getD_cons_zero,
    List.getD_cons_succ, List.map_cons, List.map_nil, standard_rejection,
    List.zipWith_cons_cons, List.zipWith_nil_right, List.sum_cons,
    List.sum_nil, Except.ok.injEq, List.cons.injEq, and_true]
  constructor
  · field_simp
    ring
  · field_simp
    ring

theorem reject_eq_neg_standard_rejection_witness :
    reject [4, 2] [3, 3] =
      Except.ok ((standard_rejection [4, 2] [3, 3]).map (fun c => -c)) :=
  reject_eq_neg_standard_rejection [4, 2] [3, 3] 18
    (by rw [dot_pair]; norm_num) (by norm_num) rfl
